import Mathlib

/-!
Shallow embedding of `node-proper-lockfile` (`src/index.js`).

The library implements an advisory file lock: the lock artifact is a
directory `<file>.lock` (its mtime is the freshness heartbeat) plus a
file `<file>.lock/.uid` holding a random ownership token.  A process-wide
registry `locks` maps each file to the handle this process holds.

Modelling decisions (documented once here):
* Paths are opaque `String` identities.  Path resolution (`canonicalPath`,
  i.e. `path.normalize` / `fs.realpath`) is declared an external
  collaborator by the spec (§1, §4.4); every internal call passes
  `resolve: false`, so `canonicalPath` is modelled as the identity.
* The filesystem is two partial maps: directories (path to mtime, in
  milliseconds, matching `stat.mtime.getTime()`; `utimes` in the source
  passes seconds, the `*1000/1000` round trip is dropped) and files
  (path to content).
* The callback style of the source becomes explicit state passing; each
  operation additionally returns the trace of primitive filesystem calls
  it performed, so "no filesystem round-trip" claims are statable.
* `uuid.v4()` is an oracle: `Sys` carries a stream of fresh tokens.
* Fallible primitives return `Except`; injected faults (a `writeFile`
  failure, transient `readFile`/`utimes` errors during renewal) model
  the I/O errors the source handles.
* `acquireLock` is recursive in the source; every recursive call passes
  `stale: 0`, and with `stale <= 0` the contended branch returns at once,
  so the recursion depth is at most 2.  The embedding uses explicit fuel.
* JavaScript object identity: the handle object is shared between the
  registry, the release closure and the renewal-tick closure.  Mutating
  operations therefore return the updated handle explicitly, and the
  caller threads it.
-/

/-- Error codes used by the source (`err-code` tags) together with the
filesystem's not-found condition and a generic injected I/O error. -/
inductive JsErr where
  | ELOCKED       -- "Lock file is already being hold"
  | ENOTACQUIRED  -- "Lock is not acquired"
  | ERELEASED     -- "Lock is already released"
  | EUPDATE       -- "Unable to update lock within the stale threshold"
  | EMISMATCH     -- "Lock uid mismatch"
  | ENOENT        -- filesystem not-found
  | EEXIST        -- mkdir on an existing entry
  | EACCES        -- injected transient filesystem failure
  | EFUEL         -- model artifact: recursion fuel exhausted (unreachable)
deriving DecidableEq, Repr

/-- A primitive filesystem call, recorded in traces. -/
inductive FSOp where
  | mkdir (p : String)
  | writeFile (p : String)
  | statOp (p : String)
  | unlink (p : String)
  | rmdir (p : String)
  | readFile (p : String)
  | utimes (p : String)
deriving DecidableEq, Repr

/-- The shared filesystem: directories (with mtime in ms) and files. -/
structure FS where
  dirs : String → Option Int
  files : String → Option String

/-- `fs.mkdir`: atomic create-or-fail; a fresh directory's mtime is the
creation time. -/
def FS.mkdir (fs : FS) (p : String) (now : Int) : Except JsErr Unit × FS :=
  match fs.dirs p with
  | some _ => (.error .EEXIST, fs)
  | none => (.ok (), { fs with dirs := fun q => if q = p then some now else fs.dirs q })

/-- `fs.writeFile`; `fault` injects a write failure. -/
def FS.writeFile (fs : FS) (p : String) (content : String) (fault : Option JsErr) :
    Except JsErr Unit × FS :=
  match fault with
  | some e => (.error e, fs)
  | none => (.ok (), { fs with files := fun q => if q = p then some content else fs.files q })

/-- `fs.stat` on a directory: its mtime, or `ENOENT`. -/
def FS.stat (fs : FS) (p : String) : Except JsErr Int :=
  match fs.dirs p with
  | some m => .ok m
  | none => .error .ENOENT

/-- `fs.unlink`: remove a file, `ENOENT` if absent. -/
def FS.unlink (fs : FS) (p : String) : Except JsErr Unit × FS :=
  match fs.files p with
  | some _ => (.ok (), { fs with files := fun q => if q = p then none else fs.files q })
  | none => (.error .ENOENT, fs)

/-- `fs.rmdir`: remove a directory, `ENOENT` if absent. -/
def FS.rmdir (fs : FS) (p : String) : Except JsErr Unit × FS :=
  match fs.dirs p with
  | some _ => (.ok (), { fs with dirs := fun q => if q = p then none else fs.dirs q })
  | none => (.error .ENOENT, fs)

/-- `fs.readFile`: a file's content, or `ENOENT`. -/
def FS.readFile (fs : FS) (p : String) : Except JsErr String :=
  match fs.files p with
  | some c => .ok c
  | none => .error .ENOENT

/-- `fs.utimes` on the lock directory: refresh its mtime, `ENOENT` if the
directory is gone. -/
def FS.utimes (fs : FS) (p : String) (t : Int) : Except JsErr Unit × FS :=
  match fs.dirs p with
  | some _ => (.ok (), { fs with dirs := fun q => if q = p then some t else fs.dirs q })
  | none => (.error .ENOENT, fs)

/-- In-memory lock handle (`locks[file]` object in the source). -/
structure LockHandle where
  uid : String
  lastUpdate : Int
  released : Bool := false
  updateError : Option JsErr := none
  updateDelay : Option Int := none
  /-- whether `lock.updateTimeout` holds a pending timer -/
  timerPending : Bool := false
deriving DecidableEq, Repr

/-- Whole-system state: filesystem, holder registry, token oracle. -/
structure Sys where
  fs : FS
  locks : String → Option LockHandle
  /-- stream of fresh ownership tokens for `uuid.v4()` -/
  uids : List String

/-- Effective options after `lock`'s defaulting (lines 174–185). -/
structure Options where
  stale : Int
  update : Int
deriving DecidableEq, Repr

def getLockFile (file : String) : String := file ++ ".lock"

/-- `path.join(getLockFile(file), '.uid')`. -/
def getUidFile (file : String) : String := getLockFile file ++ "/.uid"

/-- `removeLock` (lines 87–103): unlink the uid file, then rmdir the lock
directory, ignoring `ENOENT` at both steps. -/
def removeLock (file : String) (sys : Sys) : Except JsErr Unit × Sys × List FSOp :=
  let u := sys.fs.unlink (getUidFile file)
  match u.1 with
  | .error e =>
    if e ≠ .ENOENT then (.error e, { sys with fs := u.2 }, [.unlink (getUidFile file)])
    else
      let r := u.2.rmdir (getLockFile file)
      match r.1 with
      | .error e2 =>
        if e2 ≠ .ENOENT then
          (.error e2, { sys with fs := r.2 }, [.unlink (getUidFile file), .rmdir (getLockFile file)])
        else (.ok (), { sys with fs := r.2 }, [.unlink (getUidFile file), .rmdir (getLockFile file)])
      | .ok _ => (.ok (), { sys with fs := r.2 }, [.unlink (getUidFile file), .rmdir (getLockFile file)])
  | .ok _ =>
    let r := u.2.rmdir (getLockFile file)
    match r.1 with
    | .error e2 =>
      if e2 ≠ .ENOENT then
        (.error e2, { sys with fs := r.2 }, [.unlink (getUidFile file), .rmdir (getLockFile file)])
      else (.ok (), { sys with fs := r.2 }, [.unlink (getUidFile file), .rmdir (getLockFile file)])
    | .ok _ => (.ok (), { sys with fs := r.2 }, [.unlink (getUidFile file), .rmdir (getLockFile file)])

/-- Environment of an acquisition attempt: the current clock value and the
injected `writeFile` fault. -/
structure AcqEnv where
  now : Int
  writeErr : Option JsErr := none

/-- `acquireLock` (lines 29–85).  `fuel` bounds the recursion; every
recursive call in the source passes `stale: 0`, under which no further
recursion happens, so depth ≤ 2 and the fuel-exhausted branch is
unreachable from the public entry point. -/
def acquireLock : Nat → String → Options → AcqEnv → Sys → Except JsErr String × Sys × List FSOp
  | 0, _, _, _, sys => (.error .EFUEL, sys, [])
  | fuel + 1, file, opts, env, sys =>
    -- fast fail if a lock is acquired here
    match sys.locks file with
    | some _ => (.error .ELOCKED, sys, [])
    | none =>
      -- use mkdir to create the lockfile (atomic operation)
      let mk := sys.fs.mkdir (getLockFile file) env.now
      match mk.1 with
      | .ok _ =>
        -- write the uidfile and we are done
        let uid := sys.uids.headD "uid"
        let sys1 : Sys := { sys with fs := mk.2, uids := sys.uids.tail }
        let w := sys1.fs.writeFile (getUidFile file) uid env.writeErr
        match w.1 with
        | .error e =>
          -- tear the just-created lock down and propagate the write error
          let rm := removeLock file { sys1 with fs := w.2 }
          (.error e, rm.2.1, .mkdir (getLockFile file) :: .writeFile (getUidFile file) :: rm.2.2)
        | .ok _ =>
          (.ok uid, { sys1 with fs := w.2 },
           [.mkdir (getLockFile file), .writeFile (getUidFile file)])
      | .error _ =>
        -- contended: check staleness by the directory's mtime
        if opts.stale ≤ 0 then
          (.error .ELOCKED, { sys with fs := mk.2 }, [.mkdir (getLockFile file)])
        else
          match mk.2.stat (getLockFile file) with
          | .error statErr =>
            if statErr = .ENOENT then
              -- lockfile vanished meanwhile: retry, skipping the stale check
              let a := acquireLock fuel file { opts with stale := 0 } env { sys with fs := mk.2 }
              (a.1, a.2.1, .mkdir (getLockFile file) :: .statOp (getLockFile file) :: a.2.2)
            else
              (.error statErr, { sys with fs := mk.2 },
               [.mkdir (getLockFile file), .statOp (getLockFile file)])
          | .ok mtime =>
            if mtime ≥ env.now - opts.stale then
              (.error .ELOCKED, { sys with fs := mk.2 },
               [.mkdir (getLockFile file), .statOp (getLockFile file)])
            else
              -- stale: remove it and try again, skipping the stale check
              let rm := removeLock file { sys with fs := mk.2 }
              match rm.1 with
              | .error e =>
                (.error e, rm.2.1,
                 .mkdir (getLockFile file) :: .statOp (getLockFile file) :: rm.2.2)
              | .ok _ =>
                let a := acquireLock fuel file { opts with stale := 0 } env rm.2.1
                (a.1, a.2.1,
                 .mkdir (getLockFile file) :: .statOp (getLockFile file) :: (rm.2.2 ++ a.2.2))

/-- `unlock` (lines 236–269), with `resolve` already handled (identity) as
in every internal call site (`resolve: false`).  On success the registry
handle — shared by reference with the release and renewal closures — is
mutated; the updated handle is returned so callers can thread it. -/
def unlock (file : String) (sys : Sys) :
    Except JsErr Unit × Sys × Option LockHandle × List FSOp :=
  match sys.locks file with
  | none => (.error .ENOTACQUIRED, sys, none, [])
  | some l =>
    -- cancel the mtime update timer, signal released, delete from acquired
    let l' := { l with timerPending := false, released := true }
    let sys1 : Sys := { sys with locks := fun q => if q = file then none else sys.locks q }
    let rm := removeLock file sys1
    (rm.1, rm.2.1, some l', rm.2.2)

/-- The release function returned by `lock` (lines 221–230), bound to the
shared handle object `h`. -/
def releaseFn (file : String) (h : LockHandle) (sys : Sys) :
    Except JsErr Unit × Sys × LockHandle × List FSOp :=
  if h.released then (.error .ERELEASED, sys, h, [])
  else
    let u := unlock file sys
    (u.1, u.2.1, u.2.2.1.getD h, u.2.2.2)

/-- Model of JavaScript `String.prototype.trim` (a runtime builtin, used
by `updateLock` as `result.read.toString().trim()`): strip whitespace
from both ends. -/
def jsTrim (s : String) : String :=
  ⟨List.reverse (List.dropWhile Char.isWhitespace
      (List.reverse (List.dropWhile Char.isWhitespace s.data)))⟩

/-- Injected transient faults for one renewal tick's two parallel
filesystem calls. -/
structure TickFaults where
  readErr : Option JsErr := none
  utimesErr : Option JsErr := none
deriving DecidableEq, Repr

/-- Outcome of one renewal tick, replacing the callback effects of the
source: `noop` is the early return on a released handle, `compromised e`
means the compromise callback was invoked with `e`, `rescheduled` means
`updateLock` was called again. -/
inductive TickResult where
  | noop
  | compromised (e : JsErr)
  | rescheduled
deriving DecidableEq, Repr

/-- The body of the `setTimeout` callback in `updateLock` (lines 109–157):
one renewal tick for the handle `h` (the closure's `lock` variable),
firing at time `now`.  `async.parallel` reads the uid file and refreshes
the lock directory's mtime; both effects happen before the callback runs,
and the first error (read before utimes) becomes `err`. -/
def updateTick (file : String) (opts : Options) (f : TickFaults) (now : Int)
    (h : LockHandle) (sys : Sys) : TickResult × LockHandle × Sys × List FSOp :=
  -- lock.updateTimeout = null
  let h0 := { h with timerPending := false }
  let readRes : Except JsErr String :=
    match f.readErr with
    | some e => .error e
    | none => sys.fs.readFile (getUidFile file)
  let utimesStep : Except JsErr Unit × FS :=
    match f.utimesErr with
    | some e => (.error e, sys.fs)
    | none => sys.fs.utimes (getLockFile file) now
  let sys1 : Sys := { sys with fs := utimesStep.2 }
  let tr : List FSOp := [.readFile (getUidFile file), .utimes (getLockFile file)]
  let err : Option JsErr :=
    match readRes with
    | .error e => some e
    | .ok _ => match utimesStep.1 with | .error e => some e | .ok _ => none
  -- ignore if the lock was released
  if h0.released then (.noop, h0, sys1, tr)
  -- verify if we are within the stale threshold
  else if h0.lastUpdate ≤ now - opts.stale then
    let u := unlock file sys1
    (.compromised (h0.updateError.getD .EUPDATE), u.2.2.1.getD h0, u.2.1, tr ++ u.2.2.2)
  else
    match err with
    | some e =>
      if e = .ENOENT then
        -- the lockfile/uidfile was deleted: release and report compromise
        let u := unlock file sys1
        (.compromised e, u.2.2.1.getD h0, u.2.1, tr ++ u.2.2.2)
      else
        -- transient failure: remember it, back off to 1000ms, reschedule
        (.rescheduled,
         { h0 with updateError := some e, updateDelay := some 1000, timerPending := true },
         sys1, tr)
    | none =>
      let content := match readRes with | .ok s => s | .error _ => ""
      -- verify lock uid
      if jsTrim content ≠ h0.uid then
        (.compromised .EMISMATCH, { h0 with released := true },
         { sys1 with locks := fun q => if q = file then none else sys1.locks q }, tr)
      else
        -- all ok, keep updating
        (.rescheduled,
         { h0 with lastUpdate := now, updateError := none, updateDelay := none,
                   timerPending := true },
         sys1, tr)

/-- `JS Math.round(n / 2)` for an integer `n ≥ 0` (halves round up). -/
def jsHalfRound (n : Int) : Int := (n + 1) / 2

/-- Caller-supplied options before defaulting; `none` means the key was
absent so `extend`'s default applies. -/
structure OptionsIn where
  stale : Option Int := none
  update : Option Int := none
deriving DecidableEq, Repr

/-- The option normalization in `lock` (lines 174–185):
`stale = Math.max(options.stale || 0, 2000)` with default 10000, then
`update = Math.max(Math.min(options.update || 0, Math.round(options.stale / 2)), 1000)`
with default 5000.  (`x || 0` only maps 0 to 0, the identity on integers.) -/
def applyDefaults (o : OptionsIn) : Options :=
  let stale := max (o.stale.getD 10000) 2000
  let update := max (min (o.update.getD 5000) (jsHalfRound stale)) 1000
  { stale := stale, update := update }

/-- The success continuation of `lock` (lines 199–230) after
`canonicalPath` resolution, with the default `retries: 0` policy: attempt
`acquireLock`, and on success install the handle in the registry (with
`lastUpdate = Date.now()`) and start the renewal loop.  Returns the uid
and the shared handle object the release closure is bound to. -/
def lockAcquire (file : String) (opts : Options) (env : AcqEnv) (sys : Sys) :
    Except JsErr (String × LockHandle) × Sys × List FSOp :=
  let a := acquireLock 2 file opts env sys
  match a.1 with
  | .error e => (.error e, a.2.1, a.2.2)
  | .ok uid =>
    let h : LockHandle :=
      { uid := uid, lastUpdate := env.now, released := false,
        updateError := none, updateDelay := none, timerPending := true }
    (.ok (uid, h), { a.2.1 with locks := fun q => if q = file then some h else (a.2.1).locks q },
     a.2.2)

/-! ## Concrete witness inputs -/

/-- C1 witness system: lock directory present with mtime 8000, stray uid
file, nothing registered locally. -/
def wC1sys : Sys :=
  { fs := { dirs := fun p => if p = "f.lock" then some 8000 else none,
            files := fun p => if p = "f.lock/.uid" then some "old" else none },
    locks := fun _ => none, uids := ["tokA"] }

/-- C2 witness handle: held, fresh, owning token `tokA`. -/
def wC2h : LockHandle := { uid := "tokA", lastUpdate := 9500 }

/-- C2 witness system: artifact present but the uid file now holds a
different token `tokB`. -/
def wC2sys : Sys :=
  { fs := { dirs := fun p => if p = "f.lock" then some 9000 else none,
            files := fun p => if p = "f.lock/.uid" then some "tokB" else none },
    locks := fun p => if p = "f" then some wC2h else none, uids := [] }

/-- C3 witness system: empty filesystem, nothing registered. -/
def wC3sys : Sys :=
  { fs := { dirs := fun _ => none, files := fun _ => none },
    locks := fun _ => none, uids := ["tokA"] }

/-- C4 witness handle. -/
def wC4h : LockHandle := { uid := "tokA", lastUpdate := 0 }

/-- C4 witness system: `"f"` already registered in this process. -/
def wC4sys : Sys :=
  { fs := { dirs := fun _ => none, files := fun _ => none },
    locks := fun p => if p = "f" then some wC4h else none, uids := [] }

/-- C6 witness handle: already released. -/
def wC6h : LockHandle := { uid := "tokA", lastUpdate := 0, released := true }

/-- C6 witness handle for the cancellation half: held on `"g"`. -/
def wC6l : LockHandle := { uid := "tokB", lastUpdate := 5 }

/-- C6 witness system. -/
def wC6sys : Sys :=
  { fs := { dirs := fun _ => none, files := fun _ => none },
    locks := fun p => if p = "g" then some wC6l else none, uids := [] }

/-- C7 witness handle: held, not released. -/
def wC7h : LockHandle := { uid := "tokA", lastUpdate := 0 }

/-- C7 witness system: artifact on disk and handle registered. -/
def wC7sys : Sys :=
  { fs := { dirs := fun p => if p = "f.lock" then some 0 else none,
            files := fun p => if p = "f.lock/.uid" then some "tokA" else none },
    locks := fun p => if p = "f" then some wC7h else none, uids := [] }

/-- C8 witness system: no pre-existing artifact, nothing registered. -/
def wC8sys : Sys :=
  { fs := { dirs := fun _ => none, files := fun _ => none },
    locks := fun _ => none, uids := ["tokA"] }

/-- C9 witness handle: last renewal at 0, no remembered error. -/
def wC9h : LockHandle := { uid := "tokA", lastUpdate := 0 }

/-- C9 witness system. -/
def wC9sys : Sys :=
  { fs := { dirs := fun p => if p = "f.lock" then some 0 else none,
            files := fun p => if p = "f.lock/.uid" then some "tokA" else none },
    locks := fun p => if p = "f" then some wC9h else none, uids := [] }

/-- C9 counterexample handle: a transient error was remembered by an
earlier tick (`lock.updateError`). -/
def wC9bh : LockHandle := { uid := "tokA", lastUpdate := 0, updateError := some .EACCES }

/-- C9 counterexample system. -/
def wC9bsys : Sys :=
  { fs := { dirs := fun p => if p = "f.lock" then some 0 else none,
            files := fun p => if p = "f.lock/.uid" then some "tokA" else none },
    locks := fun p => if p = "f" then some wC9bh else none, uids := [] }

/-- C10 witness handle. -/
def wC10h : LockHandle := { uid := "tokA", lastUpdate := 9500 }

/-- C10 witness system: uid file reclaimed by another party (`tokB`). -/
def wC10sys : Sys :=
  { fs := { dirs := fun p => if p = "f.lock" then some 9000 else none,
            files := fun p => if p = "f.lock/.uid" then some "tokB" else none },
    locks := fun p => if p = "f" then some wC10h else none, uids := [] }

deriving instance DecidableEq for Except

/-! ## Helper lemmas about `removeLock`

`removeLock`'s two primitives can only fail with `ENOENT`, which it
swallows, so it always succeeds, always attempts both removals (uid file
first, then directory), and touches nothing else. -/

/-- `removeLock` never fails. -/
theorem removeLock_ok (file : String) (sys : Sys) : (removeLock file sys).1 = .ok () := by
  unfold removeLock FS.unlink FS.rmdir
  rcases hu : sys.fs.files (getUidFile file) with _ | c <;>
    rcases hd : sys.fs.dirs (getLockFile file) with _ | m <;> simp [hu, hd]

/-- After `removeLock` the lock directory entry is absent. -/
theorem removeLock_dirs_self (file : String) (sys : Sys) :
    (removeLock file sys).2.1.fs.dirs (getLockFile file) = none := by
  unfold removeLock FS.unlink FS.rmdir
  rcases hu : sys.fs.files (getUidFile file) with _ | c <;>
    rcases hd : sys.fs.dirs (getLockFile file) with _ | m <;> simp [hu, hd]

/-- After `removeLock` the uid file entry is absent. -/
theorem removeLock_files_self (file : String) (sys : Sys) :
    (removeLock file sys).2.1.fs.files (getUidFile file) = none := by
  unfold removeLock FS.unlink FS.rmdir
  rcases hu : sys.fs.files (getUidFile file) with _ | c <;>
    rcases hd : sys.fs.dirs (getLockFile file) with _ | m <;> simp [hu, hd]

/-- `removeLock` does not touch the holder registry. -/
theorem removeLock_locks (file : String) (sys : Sys) :
    (removeLock file sys).2.1.locks = sys.locks := by
  unfold removeLock FS.unlink FS.rmdir
  rcases hu : sys.fs.files (getUidFile file) with _ | c <;>
    rcases hd : sys.fs.dirs (getLockFile file) with _ | m <;> simp [hu, hd]

/-- `removeLock` does not consume ownership tokens. -/
theorem removeLock_uids (file : String) (sys : Sys) :
    (removeLock file sys).2.1.uids = sys.uids := by
  unfold removeLock FS.unlink FS.rmdir
  rcases hu : sys.fs.files (getUidFile file) with _ | c <;>
    rcases hd : sys.fs.dirs (getLockFile file) with _ | m <;> simp [hu, hd]

/-- `removeLock` touches no directory entry other than the lock directory. -/
theorem removeLock_dirs_other (file : String) (sys : Sys) (p : String)
    (hp : p ≠ getLockFile file) :
    (removeLock file sys).2.1.fs.dirs p = sys.fs.dirs p := by
  unfold removeLock FS.unlink FS.rmdir
  rcases hu : sys.fs.files (getUidFile file) with _ | c <;>
    rcases hd : sys.fs.dirs (getLockFile file) with _ | m <;> simp [hu, hd, hp]

/-- `removeLock` touches no file entry other than the uid file. -/
theorem removeLock_files_other (file : String) (sys : Sys) (p : String)
    (hp : p ≠ getUidFile file) :
    (removeLock file sys).2.1.fs.files p = sys.fs.files p := by
  unfold removeLock FS.unlink FS.rmdir
  rcases hu : sys.fs.files (getUidFile file) with _ | c <;>
    rcases hd : sys.fs.dirs (getLockFile file) with _ | m <;> simp [hu, hd, hp]

/-- `removeLock` always performs exactly an unlink of the uid file
followed by an rmdir of the lock directory. -/
theorem removeLock_trace (file : String) (sys : Sys) :
    (removeLock file sys).2.2 = [.unlink (getUidFile file), .rmdir (getLockFile file)] := by
  unfold removeLock FS.unlink FS.rmdir
  rcases hu : sys.fs.files (getUidFile file) with _ | c <;>
    rcases hd : sys.fs.dirs (getLockFile file) with _ | m <;> simp [hu, hd]

/-! ## The claims -/

/-- C1: corrected form of the contended-acquisition staleness rule.  For a
contended acquisition (`mkdir` fails) with `stale > 0` whose `stat`
succeeds returning `mtime = m`: if `now - m ≤ stale` (note `≤`, not the
claimed `<`) the call fails with `LockHeld` having touched nothing; if
`now - m > stale` the stale artifact is removed via `removeLock` (uid file
then directory, `ENOENT` ignored) and acquisition is retried exactly once
with `stale := 0`, i.e. with staleness checking disabled for that retry. -/
theorem C1_contended_stale_check (fuel : Nat) (file : String) (opts : Options) (env : AcqEnv)
    (sys : Sys) (m : Int)
    (hreg : sys.locks file = none)
    (hdir : sys.fs.dirs (getLockFile file) = some m)
    (hstale : 0 < opts.stale) :
    (env.now - m ≤ opts.stale →
       acquireLock (fuel + 1) file opts env sys =
         (.error .ELOCKED, sys, [.mkdir (getLockFile file), .statOp (getLockFile file)])) ∧
    (opts.stale < env.now - m →
       acquireLock (fuel + 1) file opts env sys =
         ((acquireLock fuel file { opts with stale := 0 } env (removeLock file sys).2.1).1,
          (acquireLock fuel file { opts with stale := 0 } env (removeLock file sys).2.1).2.1,
          .mkdir (getLockFile file) :: .statOp (getLockFile file) ::
            ((removeLock file sys).2.2 ++
             (acquireLock fuel file { opts with stale := 0 } env
                (removeLock file sys).2.1).2.2))) := by
  constructor
  · intro hfresh
    unfold acquireLock FS.mkdir FS.stat
    simp [hreg, hdir, not_le.mpr hstale, show env.now - opts.stale ≤ m by omega]
  · intro hst
    have h1 : ¬ opts.stale ≤ 0 := not_le.mpr hstale
    have h2 : ¬ (env.now - opts.stale ≤ m) := by omega
    conv_lhs => rw [acquireLock]
    simp only [hreg, hdir, FS.mkdir, FS.stat, h1, h2, if_false, removeLock_ok, ge_iff_le,
               if_neg h2]

/-- C1 counterexample to the claim as stated: at `now = 10000`,
`mtime = 8000`, `staleThreshold = 2000`, `now - mtime < staleThreshold`
is false, so the claim requires the stale path (artifact removed, retried
once); the code instead fails with `LockHeld` and leaves the artifact in
place, because its freshness test is `mtime >= now - stale`, i.e.
`now - mtime ≤ stale`. -/
theorem C1_boundary_counterexample :
    ¬ ((10000 : Int) - 8000 < 2000) ∧
    (acquireLock 2 "f" ⟨2000, 1000⟩ ⟨10000, none⟩ wC1sys).1 = .error .ELOCKED ∧
    (acquireLock 2 "f" ⟨2000, 1000⟩ ⟨10000, none⟩ wC1sys).2.1.fs.dirs "f.lock" = some 8000 ∧
    (acquireLock 2 "f" ⟨2000, 1000⟩ ⟨10000, none⟩ wC1sys).2.2 =
      [.mkdir "f.lock", .statOp "f.lock"] := by decide

/-- C1 witness: both branches of `C1_contended_stale_check` at concrete
inputs (`now = 10000` still held; `now = 10001` stale and reclaimed). -/
theorem C1_contended_stale_check_witness :
    (acquireLock 2 "f" ⟨2000, 1000⟩ ⟨10000, none⟩ wC1sys =
       (.error .ELOCKED, wC1sys, [.mkdir (getLockFile "f"), .statOp (getLockFile "f")])) ∧
    (acquireLock 2 "f" ⟨2000, 1000⟩ ⟨10001, none⟩ wC1sys =
       ((acquireLock 1 "f" ⟨0, 1000⟩ ⟨10001, none⟩ (removeLock "f" wC1sys).2.1).1,
        (acquireLock 1 "f" ⟨0, 1000⟩ ⟨10001, none⟩ (removeLock "f" wC1sys).2.1).2.1,
        .mkdir (getLockFile "f") :: .statOp (getLockFile "f") ::
          ((removeLock "f" wC1sys).2.2 ++
           (acquireLock 1 "f" ⟨0, 1000⟩ ⟨10001, none⟩ (removeLock "f" wC1sys).2.1).2.2))) :=
  ⟨(C1_contended_stale_check 1 "f" ⟨2000, 1000⟩ ⟨10000, none⟩ wC1sys 8000 (by decide) (by decide)
      (by decide)).1 (by decide),
   (C1_contended_stale_check 1 "f" ⟨2000, 1000⟩ ⟨10001, none⟩ wC1sys 8000 (by decide) (by decide)
      (by decide)).2 (by decide)⟩

/-- C2: on a renewal tick of a held, fresh handle where both parallel
filesystem operations succeed and the uid file's trimmed content differs
from the handle's ownership token, the handle is marked released, its
entry is removed from the holder registry, and the compromise callback is
invoked with the `EMISMATCH` ("Lock uid mismatch") error. -/
theorem C2_uid_mismatch_compromise (file : String) (opts : Options) (now m : Int) (c : String)
    (h : LockHandle) (sys : Sys)
    (hrel : h.released = false)
    (hfresh : now - opts.stale < h.lastUpdate)
    (hdir : sys.fs.dirs (getLockFile file) = some m)
    (huid : sys.fs.files (getUidFile file) = some c)
    (hne : jsTrim c ≠ h.uid) :
    (updateTick file opts {} now h sys).1 = .compromised .EMISMATCH ∧
    (updateTick file opts {} now h sys).2.1.released = true ∧
    (updateTick file opts {} now h sys).2.2.1.locks file = none := by
  unfold updateTick FS.readFile FS.utimes
  simp [hrel, hdir, huid, hne, not_le.mpr hfresh]

/-- C2 witness: token `tokA` held, uid file contains `tokB`. -/
theorem C2_uid_mismatch_compromise_witness :
    (updateTick "f" ⟨10000, 5000⟩ {} 10000 wC2h wC2sys).1 = .compromised .EMISMATCH ∧
    (updateTick "f" ⟨10000, 5000⟩ {} 10000 wC2h wC2sys).2.1.released = true ∧
    (updateTick "f" ⟨10000, 5000⟩ {} 10000 wC2h wC2sys).2.2.1.locks "f" = none :=
  C2_uid_mismatch_compromise "f" ⟨10000, 5000⟩ 10000 9000 "tokB" wC2h wC2sys (by decide)
    (by decide) (by decide) (by decide) (by decide)

/-- C3: if the atomic directory creation succeeds but the write of the
ownership token fails with `e`, acquisition tears the just-created
artifact down (unlink uid file, then rmdir the directory) and propagates
`e`; it does not return success and leaves neither the directory nor the
uid file on disk. -/
theorem C3_write_failure_teardown (fuel : Nat) (file : String) (opts : Options) (now : Int)
    (e : JsErr) (sys : Sys)
    (hreg : sys.locks file = none)
    (hdir : sys.fs.dirs (getLockFile file) = none) :
    (acquireLock (fuel + 1) file opts ⟨now, some e⟩ sys).1 = .error e ∧
    (acquireLock (fuel + 1) file opts ⟨now, some e⟩ sys).2.1.fs.dirs (getLockFile file) = none ∧
    (acquireLock (fuel + 1) file opts ⟨now, some e⟩ sys).2.1.fs.files (getUidFile file) = none ∧
    (acquireLock (fuel + 1) file opts ⟨now, some e⟩ sys).2.2 =
      [.mkdir (getLockFile file), .writeFile (getUidFile file),
       .unlink (getUidFile file), .rmdir (getLockFile file)] := by
  unfold acquireLock FS.mkdir FS.writeFile
  simp [hreg, hdir, removeLock_trace]
  exact ⟨removeLock_dirs_self file _, removeLock_files_self file _⟩

/-- C3 witness: injected write failure `EACCES` on an empty filesystem. -/
theorem C3_write_failure_teardown_witness :
    (acquireLock 2 "f" ⟨10000, 5000⟩ ⟨0, some .EACCES⟩ wC3sys).1 = .error .EACCES ∧
    (acquireLock 2 "f" ⟨10000, 5000⟩ ⟨0, some .EACCES⟩ wC3sys).2.1.fs.dirs (getLockFile "f") = none ∧
    (acquireLock 2 "f" ⟨10000, 5000⟩ ⟨0, some .EACCES⟩ wC3sys).2.1.fs.files (getUidFile "f") = none ∧
    (acquireLock 2 "f" ⟨10000, 5000⟩ ⟨0, some .EACCES⟩ wC3sys).2.2 =
      [.mkdir (getLockFile "f"), .writeFile (getUidFile "f"),
       .unlink (getUidFile "f"), .rmdir (getLockFile "f")] :=
  C3_write_failure_teardown 1 "f" ⟨10000, 5000⟩ 0 .EACCES wC3sys (by decide) (by decide)

/-- C4: an acquisition on an identity already present in this process's
holder registry fails immediately with `LockHeld`, leaves the system
untouched, and performs no primitive filesystem call (empty trace). -/
theorem C4_registry_fast_fail (fuel : Nat) (file : String) (opts : Options) (env : AcqEnv)
    (sys : Sys) (h : LockHandle) (hreg : sys.locks file = some h) :
    acquireLock (fuel + 1) file opts env sys = (.error .ELOCKED, sys, []) := by
  simp [acquireLock, hreg]

/-- C4 witness: `"f"` registered, acquisition fast-fails without any
filesystem operation. -/
theorem C4_registry_fast_fail_witness :
    acquireLock 2 "f" ⟨10000, 5000⟩ ⟨0, none⟩ wC4sys = (.error .ELOCKED, wC4sys, []) :=
  C4_registry_fast_fail 1 "f" ⟨10000, 5000⟩ ⟨0, none⟩ wC4sys wC4h (by decide)

/-- C5: corrected form of the option-normalization rule.  The effective
staleness threshold is `max (supplied or 10000) 2000` and the effective
renewal interval is `max (min (supplied or 5000) (round(stale/2))) 1000`;
consequently `stale ≥ 2000` and `1000 ≤ update ≤ round(stale/2)` (the
rounded half, not exactly `stale/2`: for odd thresholds the interval may
exceed `stale/2` by half a millisecond, see the counterexample). -/
theorem C5_option_clamping (o : OptionsIn) :
    (applyDefaults o).stale = max (o.stale.getD 10000) 2000 ∧
    (applyDefaults o).update =
      max (min (o.update.getD 5000) (jsHalfRound (applyDefaults o).stale)) 1000 ∧
    2000 ≤ (applyDefaults o).stale ∧
    1000 ≤ (applyDefaults o).update ∧
    (applyDefaults o).update ≤ jsHalfRound (applyDefaults o).stale := by
  simp only [applyDefaults, jsHalfRound]
  refine ⟨trivial, trivial, ?_, ?_, ?_⟩ <;> omega

/-- C5 counterexample to the claimed bound `update ≤ stale / 2`: with a
supplied staleness threshold of 2001 ms and renewal interval 5000 ms the
code computes `update = round(2001/2) = 1001`, and `2 * 1001 > 2001`. -/
theorem C5_half_bound_counterexample :
    applyDefaults { stale := some 2001, update := some 5000 } =
      { stale := 2001, update := 1001 } ∧
    ¬ (2 * (applyDefaults { stale := some 2001, update := some 5000 }).update
         ≤ (applyDefaults { stale := some 2001, update := some 5000 }).stale) := by decide

/-- C6: a renewal tick that finds its handle already released returns the
`noop` outcome — it does not reschedule (no pending timer on the returned
handle), does not invoke the compromise callback, and leaves the holder
registry untouched; and releasing via `unlock` at any time cancels the
pending renewal timer on the shared handle. -/
theorem C6_released_tick_noop :
    (∀ (file : String) (opts : Options) (f : TickFaults) (now : Int) (h : LockHandle) (sys : Sys),
       h.released = true →
         (updateTick file opts f now h sys).1 = .noop ∧
         (updateTick file opts f now h sys).2.1 = { h with timerPending := false } ∧
         (updateTick file opts f now h sys).2.2.1.locks = sys.locks) ∧
    (∀ (file : String) (sys : Sys) (l : LockHandle),
       sys.locks file = some l →
         (unlock file sys).2.2.1 = some { l with timerPending := false, released := true }) := by
  constructor
  · intro file opts f now h sys hrel
    unfold updateTick
    simp [hrel]
  · intro file sys l hreg
    unfold unlock
    simp [hreg]

/-- C6 witness: a tick on a released handle (even one far past its stale
deadline) no-ops, and `unlock` on a held lock returns the handle with the
timer cancelled. -/
theorem C6_released_tick_noop_witness :
    ((updateTick "f" ⟨10000, 5000⟩ {} 20000 wC6h wC6sys).1 = .noop ∧
     (updateTick "f" ⟨10000, 5000⟩ {} 20000 wC6h wC6sys).2.1 =
       { wC6h with timerPending := false } ∧
     (updateTick "f" ⟨10000, 5000⟩ {} 20000 wC6h wC6sys).2.2.1.locks = wC6sys.locks) ∧
    (unlock "g" wC6sys).2.2.1 = some { wC6l with timerPending := false, released := true } :=
  ⟨C6_released_tick_noop.1 "f" ⟨10000, 5000⟩ {} 20000 wC6h wC6sys (by decide),
   C6_released_tick_noop.2 "g" wC6sys wC6l (by decide)⟩

/-- C7: release is idempotent.  The first call on a held, registered
handle succeeds and afterwards neither the lock directory nor the uid
file exists on disk; the returned (shared) handle is marked released, so
every subsequent call — in any later system state — fails with
`ERELEASED`, changes nothing, and performs no filesystem call. -/
theorem C7_release_idempotent (file : String) (h : LockHandle) (sys : Sys)
    (hrel : h.released = false) (hreg : sys.locks file = some h) :
    (releaseFn file h sys).1 = .ok () ∧
    (releaseFn file h sys).2.1.fs.dirs (getLockFile file) = none ∧
    (releaseFn file h sys).2.1.fs.files (getUidFile file) = none ∧
    (releaseFn file h sys).2.2.1.released = true ∧
    ∀ sys2 : Sys, releaseFn file (releaseFn file h sys).2.2.1 sys2 =
      (.error .ERELEASED, sys2, (releaseFn file h sys).2.2.1, []) := by
  unfold releaseFn unlock
  simp [hrel, hreg, removeLock_ok, removeLock_dirs_self, removeLock_files_self]

/-- C7 witness: concrete held lock released twice; second call observes
`ERELEASED` with an empty trace and an unchanged system. -/
theorem C7_release_idempotent_witness :
    (releaseFn "f" wC7h wC7sys).1 = .ok () ∧
    (releaseFn "f" wC7h wC7sys).2.1.fs.dirs (getLockFile "f") = none ∧
    (releaseFn "f" wC7h wC7sys).2.1.fs.files (getUidFile "f") = none ∧
    (releaseFn "f" wC7h wC7sys).2.2.1.released = true ∧
    releaseFn "f" (releaseFn "f" wC7h wC7sys).2.2.1 (releaseFn "f" wC7h wC7sys).2.1 =
      (.error .ERELEASED, (releaseFn "f" wC7h wC7sys).2.1,
       (releaseFn "f" wC7h wC7sys).2.2.1, []) := by
  have h := C7_release_idempotent "f" wC7h wC7sys (by decide) (by decide)
  exact ⟨h.1, h.2.1, h.2.2.1, h.2.2.2.1, h.2.2.2.2 _⟩

/-- C8: round-trip.  On an identity with no pre-existing artifact and no
registered handle, `lockAcquire` succeeds (returning the fresh token and
the installed handle), and immediately releasing restores the directory
map, the file map and the holder registry to exactly their prior values —
nothing is left behind anywhere in the filesystem. -/
theorem C8_acquire_release_roundtrip (file : String) (opts : Options) (now : Int) (sys : Sys)
    (hreg : sys.locks file = none)
    (hdir : sys.fs.dirs (getLockFile file) = none)
    (huid : sys.fs.files (getUidFile file) = none) :
    (lockAcquire file opts ⟨now, none⟩ sys).1 =
      .ok (sys.uids.headD "uid",
           { uid := sys.uids.headD "uid", lastUpdate := now, released := false,
             updateError := none, updateDelay := none, timerPending := true }) ∧
    ((releaseFn file
        { uid := sys.uids.headD "uid", lastUpdate := now, released := false,
          updateError := none, updateDelay := none, timerPending := true }
        (lockAcquire file opts ⟨now, none⟩ sys).2.1).2.1.fs.dirs = sys.fs.dirs ∧
     (releaseFn file
        { uid := sys.uids.headD "uid", lastUpdate := now, released := false,
          updateError := none, updateDelay := none, timerPending := true }
        (lockAcquire file opts ⟨now, none⟩ sys).2.1).2.1.fs.files = sys.fs.files ∧
     (releaseFn file
        { uid := sys.uids.headD "uid", lastUpdate := now, released := false,
          updateError := none, updateDelay := none, timerPending := true }
        (lockAcquire file opts ⟨now, none⟩ sys).2.1).2.1.locks = sys.locks) := by
  unfold lockAcquire acquireLock FS.mkdir FS.writeFile releaseFn unlock
  simp [hreg, hdir]
  refine ⟨funext fun p => ?_, funext fun p => ?_, funext fun p => ?_⟩
  · by_cases hp : p = getLockFile file
    · rw [hp, removeLock_dirs_self]; exact hdir.symm
    · rw [removeLock_dirs_other _ _ _ hp]; simp [hp]
  · by_cases hp : p = getUidFile file
    · rw [hp, removeLock_files_self]; exact huid.symm
    · rw [removeLock_files_other _ _ _ hp]; simp [hp]
  · rw [removeLock_locks]
    by_cases hp : p = file
    · simp [hp, hreg]
    · simp [hp]

/-- C8 witness: acquire then release on an empty system restores it. -/
theorem C8_acquire_release_roundtrip_witness :
    (lockAcquire "f" ⟨10000, 5000⟩ ⟨7, none⟩ wC8sys).1 =
      .ok (wC8sys.uids.headD "uid",
           { uid := wC8sys.uids.headD "uid", lastUpdate := 7, released := false,
             updateError := none, updateDelay := none, timerPending := true }) ∧
    ((releaseFn "f"
        { uid := wC8sys.uids.headD "uid", lastUpdate := 7, released := false,
          updateError := none, updateDelay := none, timerPending := true }
        (lockAcquire "f" ⟨10000, 5000⟩ ⟨7, none⟩ wC8sys).2.1).2.1.fs.dirs = wC8sys.fs.dirs ∧
     (releaseFn "f"
        { uid := wC8sys.uids.headD "uid", lastUpdate := 7, released := false,
          updateError := none, updateDelay := none, timerPending := true }
        (lockAcquire "f" ⟨10000, 5000⟩ ⟨7, none⟩ wC8sys).2.1).2.1.fs.files = wC8sys.fs.files ∧
     (releaseFn "f"
        { uid := wC8sys.uids.headD "uid", lastUpdate := 7, released := false,
          updateError := none, updateDelay := none, timerPending := true }
        (lockAcquire "f" ⟨10000, 5000⟩ ⟨7, none⟩ wC8sys).2.1).2.1.locks = wC8sys.locks) :=
  C8_acquire_release_roundtrip "f" ⟨10000, 5000⟩ 7 wC8sys (by decide) (by decide) (by decide)

/-- C9: corrected form of the renewal-timeout rule.  On a tick of a
not-yet-released handle whose time since the last successful renewal
exceeds the staleness threshold — regardless of whether this tick's
filesystem operations succeeded (any fault injection `f`) — the lock is
released locally (handle marked released, registry entry removed, on-disk
artifact torn down best-effort) and the compromise callback is invoked
with the remembered transient error if one exists, otherwise with the
`EUPDATE` ("update timeout") error. -/
theorem C9_update_timeout_compromise (file : String) (opts : Options) (f : TickFaults)
    (now : Int) (h l : LockHandle) (sys : Sys)
    (hrel : h.released = false)
    (hto : opts.stale < now - h.lastUpdate)
    (hreg : sys.locks file = some l) :
    (updateTick file opts f now h sys).1 = .compromised (h.updateError.getD .EUPDATE) ∧
    (updateTick file opts f now h sys).2.1.released = true ∧
    (updateTick file opts f now h sys).2.2.1.locks file = none ∧
    (updateTick file opts f now h sys).2.2.1.fs.dirs (getLockFile file) = none ∧
    (updateTick file opts f now h sys).2.2.1.fs.files (getUidFile file) = none := by
  unfold updateTick unlock
  simp [hrel, hreg, show h.lastUpdate ≤ now - opts.stale by omega]
  refine ⟨by simp [removeLock_locks], removeLock_dirs_self file _, removeLock_files_self file _⟩

/-- C9 counterexample to the claim as stated: the tick fires past the
stale deadline while a transient error from an earlier tick is remembered
in `lock.updateError`; the compromise callback receives that remembered
error (`EACCES`), not an "update timeout" error. -/
theorem C9_remembered_error_counterexample :
    wC9bh.released = false ∧
    (2000 : Int) < 10000 - wC9bh.lastUpdate ∧
    (updateTick "f" ⟨2000, 1000⟩ {} 10000 wC9bh wC9bsys).1 = .compromised .EACCES ∧
    (updateTick "f" ⟨2000, 1000⟩ {} 10000 wC9bh wC9bsys).1 ≠ .compromised .EUPDATE := by decide

/-- C9 witness: no remembered error, tick past the deadline compromises
with `EUPDATE` and releases locally. -/
theorem C9_update_timeout_compromise_witness :
    (updateTick "f" ⟨2000, 1000⟩ {} 10000 wC9h wC9sys).1 = .compromised .EUPDATE ∧
    (updateTick "f" ⟨2000, 1000⟩ {} 10000 wC9h wC9sys).2.1.released = true ∧
    (updateTick "f" ⟨2000, 1000⟩ {} 10000 wC9h wC9sys).2.2.1.locks "f" = none ∧
    (updateTick "f" ⟨2000, 1000⟩ {} 10000 wC9h wC9sys).2.2.1.fs.dirs (getLockFile "f") = none ∧
    (updateTick "f" ⟨2000, 1000⟩ {} 10000 wC9h wC9sys).2.2.1.fs.files (getUidFile "f") = none :=
  C9_update_timeout_compromise "f" ⟨2000, 1000⟩ {} 10000 wC9h wC9h wC9sys (by decide)
    (by decide) (by decide)

/-- C10: after a uid-mismatch tick (the compromise callback received
`EMISMATCH`), calling the release function bound to that handle fails
with `ERELEASED`, changes no state, and performs no filesystem call — the
dispossessed holder cannot delete the reclaimer's lock artifact. -/
theorem C10_dispossessed_release_blocked (file : String) (opts : Options) (now m : Int)
    (c : String) (h : LockHandle) (sys : Sys)
    (hrel : h.released = false)
    (hfresh : now - opts.stale < h.lastUpdate)
    (hdir : sys.fs.dirs (getLockFile file) = some m)
    (huid : sys.fs.files (getUidFile file) = some c)
    (hne : jsTrim c ≠ h.uid) :
    (updateTick file opts {} now h sys).1 = .compromised .EMISMATCH ∧
    releaseFn file (updateTick file opts {} now h sys).2.1
        (updateTick file opts {} now h sys).2.2.1 =
      (.error .ERELEASED, (updateTick file opts {} now h sys).2.2.1,
       (updateTick file opts {} now h sys).2.1, []) := by
  unfold updateTick FS.readFile FS.utimes releaseFn
  simp [hrel, hdir, huid, hne, not_le.mpr hfresh]

/-- C10 witness: the C2 scenario followed by a release attempt. -/
theorem C10_dispossessed_release_blocked_witness :
    (updateTick "f" ⟨10000, 5000⟩ {} 10000 wC10h wC10sys).1 = .compromised .EMISMATCH ∧
    releaseFn "f" (updateTick "f" ⟨10000, 5000⟩ {} 10000 wC10h wC10sys).2.1
        (updateTick "f" ⟨10000, 5000⟩ {} 10000 wC10h wC10sys).2.2.1 =
      (.error .ERELEASED, (updateTick "f" ⟨10000, 5000⟩ {} 10000 wC10h wC10sys).2.2.1,
       (updateTick "f" ⟨10000, 5000⟩ {} 10000 wC10h wC10sys).2.1, []) :=
  C10_dispossessed_release_blocked "f" ⟨10000, 5000⟩ 10000 9000 "tokB" wC10h wC10sys
    (by decide) (by decide) (by decide) (by decide) (by decide)
